import Mathlib

/-!
Verification development for a barcode-generation web application.

The application has two components:
* an HTTP rendering endpoint with a hand-written EAN-13 encoder that maps a
  13-digit string plus layout parameters to an SVG document string, and
* a client-side multi-generator that maintains a bounded list of barcode
  items and exports the generated SVGs into a zip archive with filename
  deduplication.

Every definition below is a shallow embedding of the corresponding
JavaScript/TypeScript function.  JavaScript strings are modelled as Lean
`String`, JavaScript numbers that are used integrally as `Int`/`Nat`,
`undefined`/`null` as `Option`, thrown exceptions as `Except`, and the
process-wide mutable font cache as explicit state passing.
-/

namespace BarcodeGen

/-- EAN-13 L-code table (digit 0-9 to 7-bit pattern), `EAN13_L_CODES`. -/
def EAN13_L_CODES : List String :=
  ["0001101", "0011001", "0010011", "0111101", "0100011",
   "0110001", "0101111", "0111011", "0110111", "0001011"]

/-- EAN-13 G-code table, `EAN13_G_CODES`. -/
def EAN13_G_CODES : List String :=
  ["0100111", "0110011", "0011011", "0100001", "0011101",
   "0111001", "0000101", "0010001", "0001001", "0010111"]

/-- EAN-13 R-code table, `EAN13_R_CODES`. -/
def EAN13_R_CODES : List String :=
  ["1110010", "1100110", "1101100", "1000010", "1011100",
   "1001110", "1010000", "1000100", "1001000", "1110100"]

/-- Per-leading-digit parity patterns, `EAN13_FIRST_DIGIT_PATTERNS`. -/
def EAN13_FIRST_DIGIT_PATTERNS : List String :=
  ["LLLLLL", "LLGLGG", "LLGGLG", "LLGGGL", "LGLLGG",
   "LGGLLG", "LGGGLL", "LGLGLG", "LGLGGL", "LGGLGL"]

/-- JavaScript character indexing `text[i]` (only used at in-range indices). -/
def charAt (s : String) (i : Nat) : Char := s.data.getD i ' '

/-- The ASCII value of a digit character minus 48. -/
def digitVal (c : Char) : Nat := c.toNat - 48

/-- Whether a character is an ASCII digit (the single-character inputs on
which JavaScript `parseInt` succeeds). -/
def isDigitChar (c : Char) : Bool := decide (48 ≤ c.toNat ∧ c.toNat ≤ 57)

/-- JavaScript `parseInt` applied to a single character: the digit value for
an ASCII digit, `NaN` (modelled as `none`) otherwise. -/
def charDigit (c : Char) : Option Nat :=
  if 48 ≤ c.toNat ∧ c.toNat ≤ 57 then some (c.toNat - 48) else none

/-- JavaScript array indexing `tbl[d]` with a possibly-`NaN` index, as it is
used in string concatenation: `tbl[NaN]` and out-of-range accesses are
`undefined`, which the string concatenation `barcodeBits += tbl[d]` renders
as the text "undefined". -/
def jsIndex (tbl : List String) (d : Option Nat) : String :=
  match d with
  | some n => tbl.getD n "undefined"
  | none => "undefined"

/-- The loop `for (let i = 0; i < n; i++) acc += f(i)` on strings. -/
def appendLoop (f : Nat → String) : Nat → String
  | 0 => ""
  | n + 1 => appendLoop f n ++ f n

/-- One iteration of the left-group encoding loop of `generateEAN13Barcode`:
`pattern[i] === 'L'` selects the L-code, anything else the G-code, for the
digit `parseInt(text[i + 1])`. -/
def leftCode (text : String) (pattern : String) (i : Nat) : String :=
  if pattern.data.getD i ' ' = 'L' then
    jsIndex EAN13_L_CODES (charDigit (charAt text (i + 1)))
  else
    jsIndex EAN13_G_CODES (charDigit (charAt text (i + 1)))

/-- One iteration of the right-group encoding loop: the R-code of
`parseInt(text[i + 7])`, regardless of parity. -/
def rightCode (text : String) (i : Nat) : String :=
  jsIndex EAN13_R_CODES (charDigit (charAt text (i + 7)))

/-- The errors `generateEAN13Barcode` can raise: the explicit length check
`throw new Error('EAN-13 must be 13 digits')`, and the implicit JavaScript
`TypeError` raised by `pattern[i]` when `text[0]` is not a digit (so that
`EAN13_FIRST_DIGIT_PATTERNS[parseInt(text[0])]` is `undefined`). -/
inductive EncError where
  | lengthError
  | typeError
deriving DecidableEq, Repr

/-- The bitstream-building part of `generateEAN13Barcode` (source lines
166-191): start guard "101", six left-group codes selected by the leading
digit's parity pattern, center guard "01010", six right-group R-codes, end
guard "101". -/
def ean13Bits (text : String) : Except EncError String :=
  match charDigit (charAt text 0) with
  | none => Except.error EncError.typeError
  | some firstDigit =>
    let pattern := EAN13_FIRST_DIGIT_PATTERNS.getD firstDigit ""
    Except.ok ("101" ++ appendLoop (leftCode text pattern) 6 ++ "01010"
      ++ appendLoop (rightCode text) 6 ++ "101")

/-- The constants of `generateEAN13Barcode`. -/
def SVG_WIDTH : Nat := 346

def SVG_HEIGHT : Nat := 220

def BAR_WIDTH : Nat := 3

def GUARD_BAR_HEIGHT : Nat := 200

def DATA_BAR_HEIGHT : Nat := 165

def TEXT_Y : Nat := 185

def START_X : Nat := 30

/-- The bar-drawing loop of `generateEAN13Barcode` (source lines 194-206):
for bit index `i` at running x-coordinate `currentX`, a '1' bit pushes the
path segment `M<x> 0L<x> <barBottom>` where the bar bottom is the guard
height for indices 0-2, 42-46 and 92-94 and the data height otherwise;
every bit advances `currentX` by `BAR_WIDTH`. -/
def pathSegmentsAux : List Char → Nat → Nat → List String
  | [], _, _ => []
  | c :: rest, i, currentX =>
    (if c = '1' then
      let barBottom :=
        if i ≤ 2 ∨ (42 ≤ i ∧ i ≤ 46) ∨ (92 ≤ i ∧ i ≤ 94) then
          GUARD_BAR_HEIGHT
        else
          DATA_BAR_HEIGHT
      [s!"M{currentX} 0L{currentX} {barBottom}"]
    else []) ++ pathSegmentsAux rest (i + 1) (currentX + BAR_WIDTH)

/-- The bar segments of a bit string, starting at `x = START_X`. -/
def pathSegments (bits : List Char) : List String :=
  pathSegmentsAux bits 0 START_X

/-- The L-code table exactly as the values are listed in the specification. -/
def SPEC_L_CODES : List String :=
  ["0001101", "0011001", "0010011", "0111101", "0100011",
   "0110001", "0101111", "0111011", "0110111", "0001011"]

/-- The G-code table exactly as the values are listed in the specification. -/
def SPEC_G_CODES : List String :=
  ["0100111", "0110011", "0011011", "0100001", "0011101",
   "0111001", "0000101", "0010001", "0001001", "0010111"]

/-- The R-code table exactly as the values are listed in the specification. -/
def SPEC_R_CODES : List String :=
  ["1110010", "1100110", "1101100", "1000010", "1011100",
   "1001110", "1010000", "1000100", "1001000", "1110100"]

/-- The parity patterns per leading digit 0-9 as listed in the
specification. -/
def SPEC_PARITY_PATTERNS : List String :=
  ["LLLLLL", "LLGLGG", "LLGGLG", "LLGGGL", "LGLLGG",
   "LGGLLG", "LGGGLL", "LGLGLG", "LGLGGL", "LGGLGL"]

/-- The left-group code at position `i` as the specification describes it:
the L-code of `text[i + 1]` when the leading digit's parity pattern has 'L'
at position `i`, the G-code when it has 'G'. -/
def specLeftCode (text : String) (i : Nat) : String :=
  if (SPEC_PARITY_PATTERNS.getD (digitVal (charAt text 0)) "").data.getD i ' ' = 'L'
  then SPEC_L_CODES.getD (digitVal (charAt text (i + 1))) ""
  else if (SPEC_PARITY_PATTERNS.getD (digitVal (charAt text 0)) "").data.getD i ' ' = 'G'
  then SPEC_G_CODES.getD (digitVal (charAt text (i + 1))) ""
  else ""

/-- The right-group code at position `i` as the specification describes it:
always the R-code of `text[i + 7]`, regardless of parity. -/
def specRightCode (text : String) (i : Nat) : String :=
  SPEC_R_CODES.getD (digitVal (charAt text (i + 7))) ""

/-- The bit sequence exactly as the specification describes it: start guard
"101", the six left-group codes, center guard "01010", the six right-group
R-codes, end guard "101". -/
def ean13BitsSpec (text : String) : String :=
  "101" ++ appendLoop (specLeftCode text) 6 ++ "01010"
  ++ appendLoop (specRightCode text) 6 ++ "101"

/-- A string all of whose characters are ASCII digits. -/
def allDigits (text : String) : Prop :=
  ∀ c ∈ text.data, isDigitChar c = true

instance (text : String) : Decidable (allDigits text) := by
  unfold allDigits; infer_instance

theorem appendLoop_congr {f g : Nat → String} :
    ∀ n, (∀ i, i < n → f i = g i) → appendLoop f n = appendLoop g n := by
  intro n
  induction n with
  | zero => intro _; rfl
  | succ m ih =>
    intro h
    simp only [appendLoop]
    rw [ih (fun i hi => h i (Nat.lt_succ_of_lt hi)), h m (Nat.lt_succ_self m)]

theorem appendLoop_length {f : Nat → String} {k : Nat} :
    ∀ n, (∀ i, i < n → (f i).length = k) → (appendLoop f n).length = k * n := by
  intro n
  induction n with
  | zero => intro _; simp [appendLoop]
  | succ m ih =>
    intro h
    simp only [appendLoop, String.length_append]
    rw [ih (fun i hi => h i (Nat.lt_succ_of_lt hi)), h m (Nat.lt_succ_self m)]
    ring

theorem charDigit_of_digit {c : Char} (h : isDigitChar c = true) :
    charDigit c = some (digitVal c) := by
  simp only [isDigitChar, decide_eq_true_eq] at h
  simp [charDigit, digitVal, h]

theorem digitVal_le_nine {c : Char} (h : isDigitChar c = true) :
    digitVal c ≤ 9 := by
  simp only [isDigitChar, decide_eq_true_eq] at h
  simp only [digitVal]
  omega

theorem getD_mem_of_lt {l : List Char} {i : Nat} (h : i < l.length) (d : Char) :
    l.getD i d ∈ l := by
  rw [List.getD_eq_getElem l d h]
  exact List.getElem_mem h

theorem pattern_eq_spec {d : Nat} (hd : d ≤ 9) (s t : String) :
    EAN13_FIRST_DIGIT_PATTERNS.getD d s = SPEC_PARITY_PATTERNS.getD d t := by
  interval_cases d <;> rfl

theorem pattern_char_LG {d i : Nat} (hd : d ≤ 9) (hi : i < 6) :
    (SPEC_PARITY_PATTERNS.getD d "").data.getD i ' ' = 'L' ∨
    (SPEC_PARITY_PATTERNS.getD d "").data.getD i ' ' = 'G' := by
  interval_cases d <;> interval_cases i <;> decide

theorem lCode_eq_spec {d : Nat} (hd : d ≤ 9) (s t : String) :
    EAN13_L_CODES.getD d s = SPEC_L_CODES.getD d t := by
  interval_cases d <;> rfl

theorem gCode_eq_spec {d : Nat} (hd : d ≤ 9) (s t : String) :
    EAN13_G_CODES.getD d s = SPEC_G_CODES.getD d t := by
  interval_cases d <;> rfl

theorem rCode_eq_spec {d : Nat} (hd : d ≤ 9) (s t : String) :
    EAN13_R_CODES.getD d s = SPEC_R_CODES.getD d t := by
  interval_cases d <;> rfl

theorem specLCode_length {d : Nat} (hd : d ≤ 9) (s : String) :
    (SPEC_L_CODES.getD d s).length = 7 := by
  interval_cases d <;> rfl

theorem specGCode_length {d : Nat} (hd : d ≤ 9) (s : String) :
    (SPEC_G_CODES.getD d s).length = 7 := by
  interval_cases d <;> rfl

theorem specRCode_length {d : Nat} (hd : d ≤ 9) (s : String) :
    (SPEC_R_CODES.getD d s).length = 7 := by
  interval_cases d <;> rfl

theorem leftCode_eq_spec {text : String}
    (hd : ∀ i, i < 13 → isDigitChar (charAt text i) = true)
    {i : Nat} (hi : i < 6) :
    leftCode text (EAN13_FIRST_DIGIT_PATTERNS.getD (digitVal (charAt text 0)) "") i
      = specLeftCode text i := by
  have h0 : digitVal (charAt text 0) ≤ 9 := digitVal_le_nine (hd 0 (by omega))
  have hdi : digitVal (charAt text (i + 1)) ≤ 9 :=
    digitVal_le_nine (hd (i + 1) (by omega))
  have hcd : charDigit (charAt text (i + 1)) = some (digitVal (charAt text (i + 1))) :=
    charDigit_of_digit (hd (i + 1) (by omega))
  rw [leftCode, specLeftCode, pattern_eq_spec h0 "" ""]
  rcases pattern_char_LG h0 hi with hL | hG
  · rw [hL]
    simp only [if_pos rfl, hcd, jsIndex]
    exact lCode_eq_spec hdi _ _
  · rw [hG]
    simp only [reduceIte, hcd, jsIndex]
    exact gCode_eq_spec hdi _ _

theorem rightCode_eq_spec {text : String}
    (hd : ∀ i, i < 13 → isDigitChar (charAt text i) = true)
    {i : Nat} (hi : i < 6) :
    rightCode text i = specRightCode text i := by
  have hdi : digitVal (charAt text (i + 7)) ≤ 9 :=
    digitVal_le_nine (hd (i + 7) (by omega))
  have hcd : charDigit (charAt text (i + 7)) = some (digitVal (charAt text (i + 7))) :=
    charDigit_of_digit (hd (i + 7) (by omega))
  rw [rightCode, specRightCode, hcd]
  simp only [jsIndex]
  exact rCode_eq_spec hdi _ _

theorem specLeftCode_length {text : String}
    (hd : ∀ i, i < 13 → isDigitChar (charAt text i) = true)
    {i : Nat} (hi : i < 6) :
    (specLeftCode text i).length = 7 := by
  have h0 : digitVal (charAt text 0) ≤ 9 := digitVal_le_nine (hd 0 (by omega))
  have hdi : digitVal (charAt text (i + 1)) ≤ 9 :=
    digitVal_le_nine (hd (i + 1) (by omega))
  rw [specLeftCode]
  rcases pattern_char_LG h0 hi with hL | hG
  · rw [hL]
    simp only [if_pos rfl]
    exact specLCode_length hdi _
  · rw [hG]
    simp only [reduceIte]
    exact specGCode_length hdi _

theorem specRightCode_length {text : String}
    (hd : ∀ i, i < 13 → isDigitChar (charAt text i) = true)
    {i : Nat} (hi : i < 6) :
    (specRightCode text i).length = 7 := by
  have hdi : digitVal (charAt text (i + 7)) ≤ 9 :=
    digitVal_le_nine (hd (i + 7) (by omega))
  rw [specRightCode]
  exact specRCode_length hdi _

theorem allDigits_index {text : String} (h13 : text.length = 13)
    (hdig : allDigits text) :
    ∀ i, i < 13 → isDigitChar (charAt text i) = true := by
  intro i hi
  have hlen : text.data.length = 13 := h13
  exact hdig _ (getD_mem_of_lt (by omega) ' ')

theorem ean13Bits_eq_spec {text : String} (h13 : text.length = 13)
    (hdig : allDigits text) :
    ean13Bits text = Except.ok (ean13BitsSpec text) := by
  have hd := allDigits_index h13 hdig
  have hc0 : charDigit (charAt text 0) = some (digitVal (charAt text 0)) :=
    charDigit_of_digit (hd 0 (by omega))
  rw [ean13Bits, hc0]
  show Except.ok
      ("101"
        ++ appendLoop (leftCode text (EAN13_FIRST_DIGIT_PATTERNS.getD (digitVal (charAt text 0)) "")) 6
        ++ "01010" ++ appendLoop (rightCode text) 6 ++ "101")
    = Except.ok (ean13BitsSpec text)
  rw [appendLoop_congr 6 (fun i hi => leftCode_eq_spec hd hi),
    appendLoop_congr 6 (fun i hi => rightCode_eq_spec hd hi)]
  rfl

theorem ean13BitsSpec_length {text : String} (h13 : text.length = 13)
    (hdig : allDigits text) :
    (ean13BitsSpec text).length = 95 := by
  have hd := allDigits_index h13 hdig
  rw [ean13BitsSpec, String.length_append, String.length_append,
    String.length_append, String.length_append,
    appendLoop_length 6 (fun i hi => specLeftCode_length hd hi),
    appendLoop_length 6 (fun i hi => specRightCode_length hd hi)]
  rfl

/-- The bar height at bit index `i` as the specification describes it: the
guard height 200 exactly on the index ranges [0,2], [42,46] and [92,94],
and the data height 165 otherwise. -/
def specBarHeight (i : Nat) : Nat :=
  if i ≤ 2 ∨ (42 ≤ i ∧ i ≤ 46) ∨ (92 ≤ i ∧ i ≤ 94) then 200 else 165

theorem bar_height_eq (i : Nat) :
    (if i ≤ 2 ∨ (42 ≤ i ∧ i ≤ 46) ∨ (92 ≤ i ∧ i ≤ 94) then GUARD_BAR_HEIGHT
     else DATA_BAR_HEIGHT) = specBarHeight i := rfl

theorem pathSegmentsAux_closed (l : List Char) :
    ∀ k x, pathSegmentsAux l k x =
      (List.range l.length).filterMap fun j =>
        if l[j]? = some '1' then
          some s!"M{x + 3 * j} 0L{x + 3 * j} {specBarHeight (k + j)}"
        else none := by
  induction l with
  | nil => intro k x; rfl
  | cons c rest ih =>
    intro k x
    rw [pathSegmentsAux, ih (k + 1) (x + BAR_WIDTH), List.length_cons,
      List.range_succ_eq_map, List.filterMap_cons]
    have htail :
        List.filterMap
          (fun j =>
            if (c :: rest)[j]? = some '1' then
              some s!"M{x + 3 * j} 0L{x + 3 * j} {specBarHeight (k + j)}"
            else none)
          (List.map Nat.succ (List.range rest.length))
        = List.filterMap
          (fun j =>
            if rest[j]? = some '1' then
              some s!"M{x + BAR_WIDTH + 3 * j} 0L{x + BAR_WIDTH + 3 * j} {specBarHeight (k + 1 + j)}"
            else none)
          (List.range rest.length) := by
      rw [List.filterMap_map]
      congr 1
      funext j
      simp only [Function.comp_apply, Nat.succ_eq_add_one]
      have e1 : x + 3 * (j + 1) = x + BAR_WIDTH + 3 * j := by
        simp only [BAR_WIDTH]; omega
      have e2 : k + (j + 1) = k + 1 + j := by omega
      rw [List.getElem?_cons_succ, e1, e2]
    by_cases hc : c = '1'
    · subst hc
      simp only [List.getElem?_cons_zero, reduceIte]
      rw [htail, List.singleton_append]
      simp only [Nat.mul_zero, Nat.add_zero, bar_height_eq]
    · simp only [List.getElem?_cons_zero, Option.some.injEq, hc, ite_false,
        List.nil_append]
      rw [htail]

/-- JavaScript `text.substring(a, b)` for `a ≤ b`. -/
def jsSubstring (s : String) (a b : Nat) : String :=
  ⟨(s.data.drop a).take (b - a)⟩

/-- The `fontDataUrl` of `generateEAN13Barcode` (source line 210): a base64
data URI when the cached font payload is truthy (a non-empty string), the
relative font path otherwise. -/
def ean13FontDataUrl (fontBase64 : String) : String :=
  if fontBase64 ≠ "" then "data:font/truetype;charset=utf-8;base64," ++ fontBase64
  else "/fonts/ocrb/ocr-b-10-bt.ttf"

/-- The SVG document built by `generateEAN13Barcode` (source lines 208-237)
from the bit string: font-face block, white background rectangle, one
compound path holding all bars, and the three digit labels. -/
def ean13Svg (barcodeBits : String) (text : String)
    (fontSize offsetLeft offsetMiddle offsetRight : Int)
    (fontBase64 : String) : String :=
  let fontDataUrl := ean13FontDataUrl fontBase64
  let pathData := String.intercalate " " (pathSegments barcodeBits.data)
  let firstDigitX : Int := Int.ofNat START_X - 16 - 5 + offsetLeft
  let leftGroupX : Int := Int.ofNat START_X + 27 - 17 + offsetMiddle
  let rightGroupX : Int := Int.ofNat START_X + 174 - 25 + 3 + offsetRight
  let textY : Nat := TEXT_Y + 10
  let smallFont : Int := fontSize - 1
  let firstChar := String.singleton (charAt text 0)
  let leftDigits := jsSubstring text 1 7
  let rightDigits := jsSubstring text 7 13
  s!"<svg width=\"{SVG_WIDTH}\" height=\"{SVG_HEIGHT}\" viewBox=\"0 0 {SVG_WIDTH} {SVG_HEIGHT}\" xmlns=\"http://www.w3.org/2000/svg\">\n  <defs>\n    <style type=\"text/css\">\n      @font-face \x7b\n        font-family: \x27OCR-B\x27;\n        src: url({fontDataUrl}) format(\x27truetype\x27);\n        font-weight: normal;\n        font-style: normal;\n      \x7d\n    </style>\n  </defs>\n  <rect width=\"{SVG_WIDTH}\" height=\"{SVG_HEIGHT}\" fill=\"#FFFFFF\"/>\n  <g id=\"barcode-bars\">\n    <path stroke=\"#000000\" stroke-width=\"{BAR_WIDTH}\" d=\"{pathData}\" />\n  </g>\n  <g id=\"first-digit\">\n    <text x=\"{firstDigitX}\" y=\"{textY}\" font-family=\"OCR-B, OCRB, \x27OCR B\x27, monospace\" font-size=\"{smallFont}\" text-anchor=\"start\" fill=\"#000000\">{firstChar}</text>\n  </g>\n  <g id=\"left-group\">\n    <text x=\"{leftGroupX}\" y=\"{textY}\" font-family=\"OCR-B, OCRB, \x27OCR B\x27, monospace\" font-size=\"{fontSize}\" letter-spacing=\"-0.025em\" fill=\"#000000\">{leftDigits}</text>\n  </g>\n  <g id=\"right-group\">\n    <text x=\"{rightGroupX}\" y=\"{textY}\" font-family=\"OCR-B, OCRB, \x27OCR B\x27, monospace\" font-size=\"{fontSize}\" letter-spacing=\"-0.025em\" fill=\"#000000\">{rightDigits}</text>\n  </g>\n</svg>"

/-- `generateEAN13Barcode` (source lines 150-244): length check first, then
the bitstream, the bar path and the final SVG document.  The cached font
payload (the result of `getFontBase64` at the time of the call) is passed
explicitly. -/
def generateEAN13Barcode (text : String)
    (fontSize offsetLeft offsetMiddle offsetRight : Int)
    (fontBase64 : String) : Except EncError String :=
  if text.length ≠ 13 then Except.error EncError.lengthError
  else
    match ean13Bits text with
    | Except.error e => Except.error e
    | Except.ok barcodeBits =>
      Except.ok (ean13Svg barcodeBits text fontSize offsetLeft offsetMiddle
        offsetRight fontBase64)

theorem ean13Bits_ne_lengthError (text : String) :
    ean13Bits text ≠ Except.error EncError.lengthError := by
  rw [ean13Bits]
  cases charDigit (charAt text 0) with
  | none => simp
  | some d => simp

/-- C1: for every 13-character digit string, the encoder's bit sequence is
exactly the 95-character sequence the specification describes: start guard
"101", left-group L/G codes selected position-by-position by the leading
digit's parity pattern, center guard "01010", right-group R-codes, end
guard "101", with the code tables and parity patterns equal to the fixed
10-entry tables given in the specification (the `SPEC_*` constants are
transcribed from the specification text; the equality of the two sides
checks them against the tables in the code). -/
theorem claim_C1_bitstream (text : String) (h13 : text.length = 13)
    (hdig : allDigits text) :
    ean13Bits text = Except.ok (ean13BitsSpec text) ∧
    (ean13BitsSpec text).length = 95 :=
  ⟨ean13Bits_eq_spec h13 hdig, ean13BitsSpec_length h13 hdig⟩

/-- Witness for C1 at the concrete input "8809560223070". -/
theorem claim_C1_bitstream_witness :
    ean13Bits "8809560223070" = Except.ok (ean13BitsSpec "8809560223070") ∧
    (ean13BitsSpec "8809560223070").length = 95 :=
  claim_C1_bitstream "8809560223070" (by decide) (by decide)

/-- C2: for every 13-character digit input the encoder emits one bar per
'1' bit of the 95-bit sequence, the bar for bit index `i` being the path
segment `M(30 + 3i) 0 L(30 + 3i) h` (so it starts at y = 0) with height
`h = 200` exactly on the guard index ranges [0,2], [42,46], [92,94] and
165 otherwise; '0' bits produce no bar, and the emitted path element uses
stroke width `BAR_WIDTH = 3`. -/
theorem claim_C2_bars (text : String) (h13 : text.length = 13)
    (hdig : allDigits text) :
    ∃ bits : String, ean13Bits text = Except.ok bits ∧ bits.length = 95 ∧
      pathSegments bits.data = ((List.range 95).filterMap fun i =>
        if bits.data[i]? = some '1' then
          some s!"M{30 + 3 * i} 0L{30 + 3 * i} {specBarHeight i}"
        else none) ∧ BAR_WIDTH = 3 := by
  refine ⟨ean13BitsSpec text, ean13Bits_eq_spec h13 hdig,
    ean13BitsSpec_length h13 hdig, ?_, rfl⟩
  have h95 : (ean13BitsSpec text).data.length = 95 :=
    ean13BitsSpec_length h13 hdig
  rw [pathSegments, pathSegmentsAux_closed _ 0 START_X, h95]
  have hfun : (fun j =>
      if (ean13BitsSpec text).data[j]? = some '1' then
        some s!"M{START_X + 3 * j} 0L{START_X + 3 * j} {specBarHeight (0 + j)}"
      else none)
      = (fun i =>
      if (ean13BitsSpec text).data[i]? = some '1' then
        some s!"M{30 + 3 * i} 0L{30 + 3 * i} {specBarHeight i}"
      else none) := by
    funext j
    rw [Nat.zero_add]
    rfl
  rw [hfun]

/-- Witness for C2 at the concrete input "8809560223070". -/
theorem claim_C2_bars_witness :
    ∃ bits : String, ean13Bits "8809560223070" = Except.ok bits ∧
      bits.length = 95 ∧
      pathSegments bits.data = ((List.range 95).filterMap fun i =>
        if bits.data[i]? = some '1' then
          some s!"M{30 + 3 * i} 0L{30 + 3 * i} {specBarHeight i}"
        else none) ∧ BAR_WIDTH = 3 :=
  claim_C2_bars "8809560223070" (by decide) (by decide)

/-- C3: the encoder raises its length error exactly on inputs whose length
is not 13 (so no partial render is ever returned for them), and never
raises it for a 13-character input: no digit-content validation happens at
this layer. -/
theorem claim_C3_length_error (text : String)
    (fontSize offsetLeft offsetMiddle offsetRight : Int) (fontBase64 : String) :
    generateEAN13Barcode text fontSize offsetLeft offsetMiddle offsetRight fontBase64
      = Except.error EncError.lengthError ↔ text.length ≠ 13 := by
  constructor
  · intro h
    by_contra hne
    rw [generateEAN13Barcode, if_neg (fun hcontra => hcontra hne)] at h
    cases hbits : ean13Bits text with
    | error e =>
      rw [hbits] at h
      simp only [Except.error.injEq] at h
      exact ean13Bits_ne_lengthError text (by rw [hbits, h])
    | ok b =>
      rw [hbits] at h
      simp at h
  · intro h
    rw [generateEAN13Barcode, if_pos h]

/-- JavaScript truthiness of a nullable string (`if (cachedFontBase64)`,
`item.svgData && ...`): true exactly for a present, non-empty string. -/
def jsTruthyOpt (o : Option String) : Bool :=
  match o with
  | some s => s != ""
  | none => false

/-- The observable outcome of one `getFontBase64()` call: the returned
string, the cache cell (`cachedFontBase64`) after the call, and whether
`fs.readFileSync` was executed during the call. -/
structure FontCall where
  ret : String
  cache : Option String
  didRead : Bool
deriving DecidableEq, Repr

/-- `getFontBase64` (source lines 71-88) as a state transformer over the
module-level cache cell.  `read` is the outcome of the file read: the
base64 payload on success, or a thrown error.  On a truthy cache the cached
string is returned without reading; otherwise the file is read, a success
stores and returns the payload, and a failure returns the empty string and
leaves the cache unchanged. -/
def getFontBase64 (read : Except Unit String) (cache : Option String) : FontCall :=
  if jsTruthyOpt cache then
    ⟨cache.getD "", cache, false⟩
  else
    match read with
    | Except.ok b64 => ⟨b64, some b64, true⟩
    | Except.error _ => ⟨"", cache, true⟩

/-- A sequence of `getFontBase64()` calls with the given file-read
outcomes, threading the cache from call to call. -/
def runFontCalls : List (Except Unit String) → Option String → List FontCall
  | [], _ => []
  | r :: rest, cache =>
    getFontBase64 r cache :: runFontCalls rest (getFontBase64 r cache).cache

/-- How many calls of a sequence perform the underlying file read. -/
def fontReadCount (reads : List (Except Unit String)) (cache : Option String) : Nat :=
  ((runFontCalls reads cache).filter (fun c => c.didRead)).length

/-- C6 counterexample: two calls whose file reads both fail perform two
file reads in one process lifetime, refuting "the underlying file read is
performed at most once". -/
theorem claim_C6_counterexample :
    ¬ fontReadCount [Except.error (), Except.error ()] none ≤ 1 := by
  decide

/-- C6 (amended): once a call succeeds in loading a non-empty base64
payload `s`, the cache holds `s`, and every subsequent call returns the
same cached string without touching the filesystem; before such a load
(failed or empty reads) each call performs a file read, so the read is not
bounded by one per process. -/
theorem claim_C6_cache_after_success (s : String) (hs : s ≠ "") :
    (∀ cache, jsTruthyOpt cache = false →
      getFontBase64 (Except.ok s) cache = ⟨s, some s, true⟩) ∧
    (∀ reads, ∀ call ∈ runFontCalls reads (some s),
      call.didRead = false ∧ call.ret = s ∧ call.cache = some s) := by
  have htruthy : jsTruthyOpt (some s) = true := by
    simp [jsTruthyOpt, bne_iff_ne, hs]
  constructor
  · intro cache hc
    simp [getFontBase64, hc]
  · intro reads
    induction reads with
    | nil =>
      intro call hc
      simp [runFontCalls] at hc
    | cons r rest ih =>
      intro call hc
      rw [runFontCalls] at hc
      have hg : getFontBase64 r (some s) = ⟨s, some s, false⟩ := by
        simp [getFontBase64, htruthy]
      rw [hg] at hc
      rcases List.mem_cons.mp hc with h1 | h2
      · subst h1
        exact ⟨rfl, rfl, rfl⟩
      · exact ih call h2

/-- Witness for the amended C6 at concrete inputs. -/
theorem claim_C6_cache_witness :
    getFontBase64 (Except.ok "QUJD") none = ⟨"QUJD", some "QUJD", true⟩ ∧
    ∀ call ∈ runFontCalls [Except.error (), Except.ok "x"] (some "QUJD"),
      call.didRead = false ∧ call.ret = "QUJD" ∧ call.cache = some "QUJD" :=
  ⟨(claim_C6_cache_after_success "QUJD" (by decide)).1 none rfl,
   (claim_C6_cache_after_success "QUJD" (by decide)).2 [Except.error (), Except.ok "x"]⟩

/-- Index of the first occurrence of `pat` in a character list. -/
def findIdxAux : List Char → List Char → Option Nat
  | [], pat => if pat.isEmpty then some 0 else none
  | c :: rest, pat =>
    if pat.isPrefixOf (c :: rest) then some 0
    else (findIdxAux rest pat).map (fun n => n + 1)

/-- Whether `pat` occurs as a substring of `s`. -/
def containsSub (s pat : String) : Bool :=
  (findIdxAux s.data pat.data).isSome

/-- The `fontStyle` block of `addFontStyle` (source lines 94-114): an
inline base64 data URI when the cached payload is truthy, the relative
font URL otherwise. -/
def fontStyleBlock (fontBase64 : String) : String :=
  if fontBase64 != "" then
    "\n  <defs>\n    <style type=\"text/css\">\n      @font-face \x7b\n        font-family: \x27OCR-B\x27;\n        src: url(data:font/truetype;charset=utf-8;base64," ++ fontBase64
      ++ ") format(\x27truetype\x27);\n        font-weight: normal;\n        font-style: normal;\n      \x7d\n    </style>\n  </defs>"
  else
    "\n  <defs>\n    <style type=\"text/css\">\n      @font-face \x7b\n        font-family: \x27OCR-B\x27;\n        src: url(\x27/fonts/ocrb/ocr-b-10-bt.ttf\x27) format(\x27truetype\x27);\n        font-weight: normal;\n        font-style: normal;\n      \x7d\n    </style>\n  </defs>"

/-- `addFontStyle` (source lines 90-122): inject the font style block right
after the first `<svg ...>` tag (the regex `<svg ([^>]*)>` replaced by
itself followed by the block); if no such tag exists the SVG is returned
unchanged. -/
def addFontStyle (svg : String) (fontBase64 : String) : String :=
  match findIdxAux svg.data ("<svg ").data with
  | none => svg
  | some i =>
    let tagRest := (svg.data.drop (i + 5)).takeWhile (fun c => c != '>')
    if i + 5 + tagRest.length < svg.data.length then
      ⟨svg.data.take (i + 5 + tagRest.length + 1)
        ++ (fontStyleBlock fontBase64).data
        ++ svg.data.drop (i + 5 + tagRest.length + 1)⟩
    else svg

theorem generate_error_shape (text : String)
    (fs ol om or : Int) (fb : String) (h13 : ¬ text.length ≠ 13)
    (e : EncError) (hbits : ean13Bits text = Except.error e) :
    generateEAN13Barcode text fs ol om or fb = Except.error e := by
  rw [generateEAN13Barcode, if_neg h13, hbits]

theorem generate_ok_shape (text : String)
    (fs ol om or : Int) (fb : String) (h13 : ¬ text.length ≠ 13)
    (b : String) (hbits : ean13Bits text = Except.ok b) :
    generateEAN13Barcode text fs ol om or fb
      = Except.ok (ean13Svg b text fs ol om or fb) := by
  rw [generateEAN13Barcode, if_neg h13, hbits]

set_option maxRecDepth 100000 in
/-- C7: a failed font read returns the empty string instead of throwing
and leaves the cache unset; with an empty cached payload both the EAN-13
encoder's `fontDataUrl` and the generic font-style block fall back to the
relative URL `/fonts/ocrb/ocr-b-10-bt.ttf` (no base64 data URI), and the
success of a render never depends on the font payload. -/
theorem claim_C7_font_fallback :
    getFontBase64 (Except.error ()) none = ⟨"", none, true⟩ ∧
    ean13FontDataUrl "" = "/fonts/ocrb/ocr-b-10-bt.ttf" ∧
    containsSub (fontStyleBlock "") "url(\x27/fonts/ocrb/ocr-b-10-bt.ttf\x27)" = true ∧
    containsSub (fontStyleBlock "") "base64" = false ∧
    (∀ (text : String) (fontSize offsetLeft offsetMiddle offsetRight : Int)
        (fb fb' : String),
      (generateEAN13Barcode text fontSize offsetLeft offsetMiddle offsetRight fb).isOk
        = (generateEAN13Barcode text fontSize offsetLeft offsetMiddle offsetRight fb').isOk) ∧
    (generateEAN13Barcode "8809560223070" 31 0 0 0 "").isOk = true := by
  refine ⟨rfl, rfl, by decide, by decide, ?_, by rfl⟩
  intro text fontSize offsetLeft offsetMiddle offsetRight fb fb'
  by_cases h : text.length ≠ 13
  · rw [generateEAN13Barcode, generateEAN13Barcode, if_pos h, if_pos h]
  · cases hbits : ean13Bits text with
    | error e =>
      rw [generate_error_shape text fontSize offsetLeft offsetMiddle offsetRight fb h e hbits,
        generate_error_shape text fontSize offsetLeft offsetMiddle offsetRight fb' h e hbits]
    | ok b =>
      rw [generate_ok_shape text fontSize offsetLeft offsetMiddle offsetRight fb h b hbits,
        generate_ok_shape text fontSize offsetLeft offsetMiddle offsetRight fb' h b hbits]
      show (true : Bool) = true
      rfl

/-- Replace the first occurrence of `pat` in `s` by `repl` (JavaScript
`s.replace(pat, repl)` with a plain string or literal-only regex). -/
def replaceFirst (s pat repl : String) : String :=
  match findIdxAux s.data pat.data with
  | none => s
  | some i => ⟨s.data.take i ++ repl.data ++ s.data.drop (i + pat.data.length)⟩

/-- The capture group of a regex of the form `pre([^stop]+)stop` applied to
`s`: the non-empty run of characters after the first occurrence of `pre`
and before the next `stop` character. -/
def captureBetween (s : String) (pre : String) (stop : Char) : Option String :=
  match findIdxAux s.data pre.data with
  | none => none
  | some i =>
    let after := s.data.drop (i + pre.length)
    let cap := after.takeWhile (fun c => c != stop)
    if cap.length = 0 ∨ cap.length = after.length then none else some ⟨cap⟩

/-- `addSVGDimensions` (source lines 51-69): parse the `viewBox` attribute,
take its third and fourth space-separated values (JavaScript renders a
missing value as "undefined"), and prepend explicit `width`/`height`
attributes to the first `<svg ` tag; if no `viewBox` matches, the SVG is
returned unchanged. -/
def addSVGDimensions (svg : String) : String :=
  match captureBetween svg "viewBox=\"" '"' with
  | none => svg
  | some vb =>
    let vals := vb.splitOn " "
    let width := vals.getD 2 "undefined"
    let height := vals.getD 3 "undefined"
    replaceFirst svg "<svg " ("<svg width=\"" ++ width ++ "\" height=\"" ++ height ++ "\" ")

/-- The value of a digit-character list read as a decimal number. -/
def digitsToNat (l : List Char) : Nat :=
  l.foldl (fun acc c => acc * 10 + (c.toNat - 48)) 0

/-- JavaScript `parseFloat` restricted to the shapes that occur here:
optional leading spaces and sign, an integer part and an optional decimal
fraction; anything else (`NaN`) is `none`. -/
def parseFloatQ (s : String) : Option ℚ :=
  let l := s.data.dropWhile (fun c => c == ' ')
  let signAndRest : ℚ × List Char :=
    match l with
    | '-' :: rest => (-1, rest)
    | '+' :: rest => (1, rest)
    | _ => (1, l)
  let intPart := signAndRest.2.takeWhile isDigitChar
  let rest2 := signAndRest.2.dropWhile isDigitChar
  let frac :=
    match rest2 with
    | '.' :: r => r.takeWhile isDigitChar
    | _ => []
  if intPart.isEmpty ∧ frac.isEmpty then none
  else some (signAndRest.1 * ((digitsToNat intPart : ℚ)
    + (digitsToNat frac : ℚ) / ((10 : ℚ) ^ frac.length)))

/-- JavaScript number-to-string conversion for the values produced by
`addCenterText` (integers, and exact tenths from halving an integral
viewBox width); other denominators cannot arise from those inputs. -/
def jsRatStr (q : ℚ) : String :=
  if q.den = 1 then toString q.num
  else if (q * 10).den = 1 then
    (if q < 0 then "-" else "") ++ toString (q.num.natAbs / q.den) ++ "."
      ++ toString ((q * 10).num.natAbs % 10)
  else toString q

/-- `addCenterText` (source lines 257-278): parse the `viewBox`, append a
centered text label at `x = width / 2`, `y = height - 2` before the closing
`</svg>` tag; if no `viewBox` matches, the SVG is returned unchanged. -/
def addCenterText (svg : String) (text : String) (fontSize : Int) : String :=
  match captureBetween svg "viewBox=\"" '"' with
  | none => svg
  | some vb =>
    let vals := vb.splitOn " "
    let wStr :=
      match parseFloatQ (vals.getD 2 "undefined") with
      | some q => jsRatStr (q / 2)
      | none => "NaN"
    let yStr :=
      match parseFloatQ (vals.getD 3 "undefined") with
      | some q => jsRatStr (q - 2)
      | none => "NaN"
    let textElement := "\n  <text x=\"" ++ wStr ++ "\" y=\"" ++ yStr
      ++ "\" font-family=\"OCR-B, OCRB, \x27OCR B\x27, monospace\" font-size=\""
      ++ toString fontSize ++ "\" text-anchor=\"middle\" fill=\"#000000\">"
      ++ text ++ "</text>"
    replaceFirst svg "</svg>" (textElement ++ "\n</svg>")

/-- The validated request body (`BarcodeRequestSchema.parse` output). -/
structure BarcodeRequest where
  contents : String
  symbology : String
  quietZone : Int
  fontSize : Int
  offsetLeft : Int
  offsetMiddle : Int
  offsetRight : Int
deriving DecidableEq, Repr

/-- The observable HTTP response of the endpoint: a 200 SVG body, or the
JSON object `{error: msg}` with the given status. -/
inductive Response where
  | svgResp (body : String)
  | jsonError (msg : String) (status : Nat)
deriving DecidableEq, Repr

/-- The `error.message` of an encoder exception as the endpoint's catch
block reads it. -/
def errMessage : EncError → String
  | EncError.lengthError => "EAN-13 must be 13 digits"
  | EncError.typeError => "Cannot read properties of undefined (reading \x270\x27)"

/-- `processEAN13` (source lines 249-252): ignore the bwip-js SVG argument
and generate the barcode directly. -/
def processEAN13 (svg : String) (text : String)
    (fontSize offsetLeft offsetMiddle offsetRight : Int)
    (fontBase64 : String) : Except EncError String :=
  generateEAN13Barcode text fontSize offsetLeft offsetMiddle offsetRight fontBase64

/-- The `POST` handler (source lines 8-49).  `jsonResult` is the outcome of
`request.json()` (the raw body, or a thrown parse error), `parseReq` is
`BarcodeRequestSchema.parse` (a validated request, or a thrown validation
error) and `bwipToSVG` is `bwipjs.toSVG` on the request's options and
contents (an SVG string, or a thrown library error).  Every thrown error is
caught and translated to a `{error}` JSON response with status 400. -/
def POST (jsonResult : Except String String)
    (parseReq : String → Except String BarcodeRequest)
    (bwipToSVG : BarcodeRequest → Except String String)
    (fontBase64 : String) : Response :=
  match jsonResult with
  | Except.error e => Response.jsonError e 400
  | Except.ok body =>
    match parseReq body with
    | Except.error e => Response.jsonError e 400
    | Except.ok req =>
      match bwipToSVG req with
      | Except.error e => Response.jsonError e 400
      | Except.ok svg0 =>
        let svg1 := addSVGDimensions svg0
        let svg2 := addFontStyle svg1 fontBase64
        if req.symbology = "ean13" then
          match processEAN13 svg2 req.contents req.fontSize req.offsetLeft
              req.offsetMiddle req.offsetRight fontBase64 with
          | Except.error e => Response.jsonError (errMessage e) 400
          | Except.ok out => Response.svgResp out
        else
          Response.svgResp (addCenterText svg2 req.contents req.fontSize)

/-- C4: for every successfully parsed ean13 request with a successful
bwip-js call, the response is determined solely by the custom encoder on
the request's contents, fontSize and three offsets: the bwip-js SVG `svg0`
(and the dimension/font post-processing applied to it) does not occur in
the result, whatever `svg0` is. -/
theorem claim_C4_custom_encoder_only
    (parseReq : String → Except String BarcodeRequest)
    (body svg0 fontBase64 : String) (req : BarcodeRequest)
    (hparse : parseReq body = Except.ok req)
    (hsym : req.symbology = "ean13") :
    POST (Except.ok body) parseReq (fun _ => Except.ok svg0) fontBase64
      = match generateEAN13Barcode req.contents req.fontSize req.offsetLeft
          req.offsetMiddle req.offsetRight fontBase64 with
        | Except.error e => Response.jsonError (errMessage e) 400
        | Except.ok out => Response.svgResp out := by
  rw [POST, hparse]
  show (if req.symbology = "ean13" then _ else _) = _
  rw [if_pos hsym]
  rfl

/-- Witness for C4 at a concrete request. -/
theorem claim_C4_witness :
    POST (Except.ok "rawbody")
        (fun _ => Except.ok ⟨"8809560223070", "ean13", 0, 31, 0, 0, 0⟩)
        (fun _ => Except.ok "<svg >library output</svg>") ""
      = match generateEAN13Barcode "8809560223070" 31 0 0 0 "" with
        | Except.error e => Response.jsonError (errMessage e) 400
        | Except.ok out => Response.svgResp out :=
  claim_C4_custom_encoder_only
    (fun _ => Except.ok ⟨"8809560223070", "ean13", 0, 31, 0, 0, 0⟩)
    "rawbody" "<svg >library output</svg>" ""
    ⟨"8809560223070", "ean13", 0, 31, 0, 0, 0⟩ rfl rfl

/-- C5: whenever any internal step fails - JSON body parse, schema
validation, the bwip-js call, or the EAN-13 encoder - the handler returns
the JSON error object with status 400; in particular no SVG body is
returned on a failing request. -/
theorem claim_C5_uniform_errors (jsonResult : Except String String)
    (parseReq : String → Except String BarcodeRequest)
    (bwipToSVG : BarcodeRequest → Except String String) (fontBase64 : String)
    (hfail :
      (∃ e, jsonResult = Except.error e) ∨
      (∃ body e, jsonResult = Except.ok body ∧ parseReq body = Except.error e) ∨
      (∃ body req e, jsonResult = Except.ok body ∧ parseReq body = Except.ok req ∧
        bwipToSVG req = Except.error e) ∨
      (∃ body req svg0 e, jsonResult = Except.ok body ∧
        parseReq body = Except.ok req ∧ bwipToSVG req = Except.ok svg0 ∧
        req.symbology = "ean13" ∧
        generateEAN13Barcode req.contents req.fontSize req.offsetLeft
          req.offsetMiddle req.offsetRight fontBase64 = Except.error e)) :
    ∃ msg, POST jsonResult parseReq bwipToSVG fontBase64
      = Response.jsonError msg 400 := by
  rcases hfail with ⟨e, he⟩ | ⟨body, e, hb, hp⟩ | ⟨body, req, e, hb, hp, hw⟩ |
    ⟨body, req, svg0, e, hb, hp, hw, hsym, hgen⟩
  · exact ⟨e, by rw [he]; rfl⟩
  · refine ⟨e, ?_⟩
    rw [hb]
    simp only [POST, hp]
  · refine ⟨e, ?_⟩
    rw [hb]
    simp only [POST, hp, hw]
  · refine ⟨errMessage e, ?_⟩
    rw [hb]
    simp only [POST, hp, hw, hsym, reduceIte, processEAN13, hgen]

/-- Witness for C5: a malformed JSON body yields a 400 JSON error. -/
theorem claim_C5_witness :
    ∃ msg, POST (Except.error "Unexpected token in JSON")
        (fun _ => Except.error "schema") (fun _ => Except.error "bwip") ""
      = Response.jsonError msg 400 :=
  claim_C5_uniform_errors (Except.error "Unexpected token in JSON")
    (fun _ => Except.error "schema") (fun _ => Except.error "bwip") ""
    (Or.inl ⟨"Unexpected token in JSON", rfl⟩)

/-- C9: the bwip-js call happens before the custom encoder is reached, so
for an ean13 request on which the library throws, the handler answers with
the library's 400 error even when the custom encoder alone would accept
the contents. -/
theorem claim_C9_library_gates_ean13
    (parseReq : String → Except String BarcodeRequest)
    (bwipToSVG : BarcodeRequest → Except String String)
    (body m fontBase64 : String) (req : BarcodeRequest)
    (hparse : parseReq body = Except.ok req)
    (hsym : req.symbology = "ean13")
    (hbwip : bwipToSVG req = Except.error m)
    (hgen : (generateEAN13Barcode req.contents req.fontSize req.offsetLeft
      req.offsetMiddle req.offsetRight fontBase64).isOk = true) :
    POST (Except.ok body) parseReq bwipToSVG fontBase64
      = Response.jsonError m 400 := by
  simp only [POST, hparse, hbwip]

/-- Witness for C9: the library rejects, so the valid 13-digit ean13
contents never reach the custom encoder and a 400 with the library
message is returned. -/
theorem claim_C9_witness :
    POST (Except.ok "rawbody")
        (fun _ => Except.ok ⟨"8809560223070", "ean13", 0, 31, 0, 0, 0⟩)
        (fun _ => Except.error "bwipp.ean13: bad check digit") ""
      = Response.jsonError "bwipp.ean13: bad check digit" 400 :=
  claim_C9_library_gates_ean13
    (fun _ => Except.ok ⟨"8809560223070", "ean13", 0, 31, 0, 0, 0⟩)
    (fun _ => Except.error "bwipp.ean13: bad check digit")
    "rawbody" "bwipp.ean13: bad check digit" ""
    ⟨"8809560223070", "ean13", 0, 31, 0, 0, 0⟩ rfl rfl rfl (by rfl)

/-- One item of the multi-generator's list (`BarcodeItem` in
`types/barcode.ts`). -/
structure BarcodeItem where
  id : String
  contents : String
  symbology : String
  svgData : Option String
  error : Option String
  isSelected : Bool
  processedContents : Option String
deriving DecidableEq, Repr

/-- JavaScript `item.processedContents || item.contents`. -/
def jsOrContents (b : BarcodeItem) : String :=
  match b.processedContents with
  | some s => if s != "" then s else b.contents
  | none => b.contents

/-- The base filename `<symbology>_<processedContents || contents>` of
`handleDownloadZip` and `handleDownloadSVG`. -/
def baseFilename (b : BarcodeItem) : String :=
  b.symbology ++ "_" ++ jsOrContents b

/-- JavaScript `String.prototype.trim`: strip leading and trailing
whitespace. -/
def jsTrim (s : String) : String :=
  ⟨((s.data.dropWhile (fun c => c.isWhitespace)).reverse.dropWhile
    (fun c => c.isWhitespace)).reverse⟩

/-- JavaScript `b.svgData && b.svgData.trim().length > 0`. -/
def svgNonEmpty (b : BarcodeItem) : Bool :=
  match b.svgData with
  | some s => decide (0 < (jsTrim s).length)
  | none => false

/-- The filename-assignment loop of `handleDownloadZip` (source lines
464-488): `filenameCount` is the JavaScript `Map` keyed by the undecorated
filename `<base>.svg`; a fresh base keeps `<base>.svg` and stores count 0,
a collision bumps the count to `c + 1` and yields `<base>_<c+1>.svg`. -/
def zipNamesAux : List BarcodeItem → (String → Option Nat) → List String
  | [], _ => []
  | item :: rest, filenameCount =>
    if svgNonEmpty item then
      match filenameCount (baseFilename item ++ ".svg") with
      | some c =>
        (baseFilename item ++ "_" ++ toString (c + 1) ++ ".svg")
          :: zipNamesAux rest (fun k =>
              if k = baseFilename item ++ ".svg" then some (c + 1)
              else filenameCount k)
      | none =>
        (baseFilename item ++ ".svg")
          :: zipNamesAux rest (fun k =>
              if k = baseFilename item ++ ".svg" then some 0
              else filenameCount k)
    else
      zipNamesAux rest filenameCount

/-- The archive filenames produced by `handleDownloadZip` (source lines
446-515): filter to items with non-empty SVG data (and selected ones when
`selectedOnly`), then assign deduplicated filenames. -/
def handleDownloadZipFilenames (selectedOnly : Bool)
    (barcodes : List BarcodeItem) : List String :=
  zipNamesAux
    (if selectedOnly then
      barcodes.filter (fun b => b.isSelected && svgNonEmpty b)
    else
      barcodes.filter (fun b => svgNonEmpty b))
    (fun _ => none)

/-- The naming rule as the specification states it: the first occurrence of
a base filename keeps `<base>.svg`, and the k-th subsequent collision of
the same base is named `<base>_k.svg`; `occ` counts how often each base has
occurred so far. -/
def zipNamesBySpecAux : List BarcodeItem → (String → Nat) → List String
  | [], _ => []
  | item :: rest, occ =>
    if svgNonEmpty item then
      (if occ (baseFilename item) = 0 then baseFilename item ++ ".svg"
       else baseFilename item ++ "_" ++ toString (occ (baseFilename item)) ++ ".svg")
        :: zipNamesBySpecAux rest (fun k =>
            if k = baseFilename item then occ (baseFilename item) + 1 else occ k)
    else
      zipNamesBySpecAux rest occ

/-- The spec naming rule started with no base seen yet. -/
def zipNamesBySpec (items : List BarcodeItem) : List String :=
  zipNamesBySpecAux items (fun _ => 0)

theorem append_svg_inj {a b : String} (h : a ++ ".svg" = b ++ ".svg") :
    a = b := by
  have hd : a.data ++ (".svg").data = b.data ++ (".svg").data := by
    have h2 := congrArg String.data h
    simpa using h2
  have hdata : a.data = b.data := List.append_cancel_right hd
  cases a
  cases b
  exact congrArg String.mk hdata

theorem zipNamesAux_eq_spec :
    ∀ (items : List BarcodeItem) (m : String → Option Nat) (occ : String → Nat),
    (∀ b : String, m (b ++ ".svg") =
      match occ b with
      | 0 => none
      | n + 1 => some n) →
    zipNamesAux items m = zipNamesBySpecAux items occ := by
  intro items
  induction items with
  | nil => intro m occ _; rfl
  | cons item rest ih =>
    intro m occ hco
    rw [zipNamesAux, zipNamesBySpecAux]
    by_cases hsvg : svgNonEmpty item = true
    · rw [if_pos hsvg, if_pos hsvg]
      have hkey := hco (baseFilename item)
      cases hocc : occ (baseFilename item) with
      | zero =>
        rw [hocc] at hkey
        simp only [hkey, hocc, reduceIte]
        refine congrArg (List.cons _) (ih _ _ ?_)
        intro b
        by_cases hb : b = baseFilename item
        · subst hb
          rw [if_pos rfl, if_pos rfl]
        · rw [if_neg (fun hk => hb (append_svg_inj hk)), if_neg hb]
          exact hco b
      | succ n =>
        rw [hocc] at hkey
        simp only [hkey, hocc]
        rw [if_neg (Nat.succ_ne_zero n)]
        refine congrArg (List.cons _) (ih _ _ ?_)
        intro b
        by_cases hb : b = baseFilename item
        · subst hb
          rw [if_pos rfl, if_pos rfl]
        · rw [if_neg (fun hk => hb (append_svg_inj hk)), if_neg hb]
          exact hco b
    · rw [if_neg hsvg, if_neg hsvg]
      exact ih m occ hco

theorem zipNamesAux_filter :
    ∀ (items : List BarcodeItem) (m : String → Option Nat),
    zipNamesAux (items.filter (fun b => svgNonEmpty b)) m
      = zipNamesAux items m := by
  intro items
  induction items with
  | nil => intro m; rfl
  | cons item rest ih =>
    intro m
    by_cases hsvg : svgNonEmpty item = true
    · rw [List.filter_cons_of_pos hsvg, zipNamesAux, zipNamesAux,
        if_pos hsvg, if_pos hsvg]
      cases m (baseFilename item ++ ".svg") with
      | some c => exact congrArg (List.cons _) (ih _)
      | none => exact congrArg (List.cons _) (ih _)
    · rw [List.filter_cons_of_neg hsvg, zipNamesAux, if_neg hsvg]
      exact ih m

theorem zipNamesBySpecAux_length :
    ∀ (items : List BarcodeItem) (occ : String → Nat),
    (zipNamesBySpecAux items occ).length
      = (items.filter (fun b => svgNonEmpty b)).length := by
  intro items
  induction items with
  | nil => intro occ; rfl
  | cons item rest ih =>
    intro occ
    by_cases hsvg : svgNonEmpty item = true
    · rw [zipNamesBySpecAux, if_pos hsvg, List.filter_cons_of_pos hsvg,
        List.length_cons, List.length_cons, ih]
    · rw [zipNamesBySpecAux, if_neg hsvg, List.filter_cons_of_neg hsvg, ih]

set_option maxRecDepth 40000 in
/-- C8 counterexample: three items with contents "a", "a", "a_1" receive
the filenames `ean13_a.svg`, `ean13_a_1.svg`, `ean13_a_1.svg` - the
suffixed name of the second item collides with the base name of the third,
so the items are not all added under distinct filenames. -/
theorem claim_C8_counterexample :
    ¬ (handleDownloadZipFilenames false
      [⟨"1", "a", "ean13", some "<svg/>", none, false, none⟩,
       ⟨"2", "a", "ean13", some "<svg/>", none, false, none⟩,
       ⟨"3", "a_1", "ean13", some "<svg/>", none, false, none⟩]).Nodup := by
  decide

/-- C8 (amended): every item with non-empty SVG data receives exactly one
archive filename, assigned by the stated rule - the first occurrence of a
base keeps `<base>.svg` and the k-th subsequent collision of that base is
named `<base>_k.svg` - but the assigned names are not globally distinct: a
suffixed name can coincide with a different item's base name (in which
case the later zip entry overwrites the earlier one). -/
theorem claim_C8_dedup_rule (barcodes : List BarcodeItem) :
    handleDownloadZipFilenames false barcodes = zipNamesBySpec barcodes ∧
    (zipNamesBySpec barcodes).length
      = (barcodes.filter (fun b => svgNonEmpty b)).length := by
  constructor
  · rw [handleDownloadZipFilenames]
    show zipNamesAux (barcodes.filter (fun b => svgNonEmpty b)) (fun _ => none)
      = _
    rw [zipNamesAux_filter]
    exact zipNamesAux_eq_spec barcodes _ _ (fun b => rfl)
  · exact zipNamesBySpecAux_length barcodes _

/-- `MAX_BARCODES` (source line 286). -/
def MAX_BARCODES : Nat := 50

/-- The initial state of the multi-generator's list (source lines
293-300). -/
def initialBarcodes : List BarcodeItem :=
  [⟨"1", "8809560223070", "ean13", none, none, false, none⟩]

/-- The state-changing handlers of the multi-generator component.  In
`addBarcode` the id is the value of `Date.now().toString()` at the moment
of the click - an environment input of the transition, not guaranteed
distinct across calls. -/
inductive MultiOp where
  | addBarcode (newId : String)
  | deleteBarcode (id : String)
  | updateBarcode (id : String) (contents : String) (symbology : String)
  | toggleSelect (id : String)
  | selectAll
  | setResult (id : String) (svg : Option String) (err : Option String)
      (pc : Option String)
deriving DecidableEq, Repr

/-- One handler call on the `barcodes` state: `handleAddBarcode` (refuse at
`MAX_BARCODES`, else append a fresh empty ean13 item), `handleDeleteBarcode`
(refuse at length 1, else remove every item with the given id),
`handleUpdateBarcode`, `handleToggleSelect`, `handleSelectAll`, and the
`setBarcodes` call of `handleGenerateOne` writing a generation result. -/
def applyOp (barcodes : List BarcodeItem) : MultiOp → List BarcodeItem
  | MultiOp.addBarcode newId =>
    if barcodes.length ≥ MAX_BARCODES then barcodes
    else barcodes ++ [⟨newId, "", "ean13", none, none, false, none⟩]
  | MultiOp.deleteBarcode id =>
    if barcodes.length ≤ 1 then barcodes
    else barcodes.filter (fun b => b.id != id)
  | MultiOp.updateBarcode id contents symbology =>
    barcodes.map (fun b =>
      if b.id = id then
        { b with contents := contents, symbology := symbology }
      else b)
  | MultiOp.toggleSelect id =>
    barcodes.map (fun b =>
      if b.id = id then { b with isSelected := !b.isSelected } else b)
  | MultiOp.selectAll =>
    barcodes.map (fun b =>
      { b with isSelected :=
          if jsTruthyOpt b.svgData then
            !(barcodes.all (fun a => a.isSelected && jsTruthyOpt a.svgData))
          else false })
  | MultiOp.setResult id svg err pc =>
    barcodes.map (fun b =>
      if b.id = id then
        { b with svgData := svg, error := err, processedContents := pc }
      else b)

/-- A sequence of handler calls from a starting state. -/
def applyOps (s : List BarcodeItem) (ops : List MultiOp) : List BarcodeItem :=
  ops.foldl applyOp s

/-- The ids of the items in the list. -/
def idsOf (l : List BarcodeItem) : List String := l.map (fun b => b.id)

/-- Whether every `addBarcode` in the sequence supplies an id that is not
already present at the moment it runs (true of distinct
millisecond-timestamp ids). -/
def freshOp (s : List BarcodeItem) : MultiOp → Bool
  | MultiOp.addBarcode newId => !(decide (newId ∈ idsOf s))
  | _ => true

def freshOps : List BarcodeItem → List MultiOp → Bool
  | _, [] => true
  | s, op :: rest => freshOp s op && freshOps (applyOp s op) rest

/-- C10 counterexample: two add clicks in the same millisecond produce two
items with the same id; deleting the initial item and then that id empties
the list, so the length can leave the claimed range [1, 50]. -/
theorem claim_C10_counterexample :
    ¬ 1 ≤ (applyOps initialBarcodes
      [MultiOp.addBarcode "1700000000000", MultiOp.addBarcode "1700000000000",
       MultiOp.deleteBarcode "1",
       MultiOp.deleteBarcode "1700000000000"]).length := by
  decide

theorem idsOf_map_preserve {l : List BarcodeItem} {g : BarcodeItem → BarcodeItem}
    (hg : ∀ b, (g b).id = b.id) : idsOf (l.map g) = idsOf l := by
  rw [idsOf, idsOf, List.map_map]
  congr 1
  funext b
  exact hg b

theorem nodup_cons_ids {b : BarcodeItem} {rest : List BarcodeItem}
    (hnd : (idsOf (b :: rest)).Nodup) :
    b.id ∉ idsOf rest ∧ (idsOf rest).Nodup := by
  have h2 : (b.id :: idsOf rest).Nodup := by simpa [idsOf] using hnd
  exact List.nodup_cons.mp h2

theorem filter_ne_length (l : List BarcodeItem) (x : String)
    (hnd : (idsOf l).Nodup) :
    l.length - 1 ≤ (l.filter (fun b => b.id != x)).length := by
  induction l with
  | nil => simp
  | cons b rest ih =>
    rcases nodup_cons_ids hnd with ⟨hnotin, hnd'⟩
    by_cases hb : b.id = x
    · have hall : rest.filter (fun c => c.id != x) = rest := by
        rw [List.filter_eq_self]
        intro c hc
        have hmem : c.id ∈ idsOf rest := List.mem_map_of_mem _ hc
        simp only [bne_iff_ne, ne_eq, decide_not]
        intro hcx
        rw [hcx, ← hb] at hmem
        exact hnotin hmem
      have hbx : (b.id != x) = false := by simp [hb]
      rw [List.filter_cons, hbx, if_neg (by simp), hall]
      simp
    · have hbx : (b.id != x) = true := by simp [hb]
      rw [List.filter_cons, hbx, if_pos rfl]
      have := ih hnd'
      simp only [List.length_cons]
      omega

theorem applyOp_invariant {s : List BarcodeItem} {op : MultiOp}
    (hnd : (idsOf s).Nodup) (h1 : 1 ≤ s.length) (h50 : s.length ≤ MAX_BARCODES)
    (hfresh : freshOp s op = true) :
    (idsOf (applyOp s op)).Nodup ∧ 1 ≤ (applyOp s op).length ∧
      (applyOp s op).length ≤ MAX_BARCODES := by
  cases op with
  | addBarcode newId =>
    have hni : newId ∉ idsOf s := by
      simpa [freshOp] using hfresh
    rw [applyOp]
    by_cases hlen : s.length ≥ MAX_BARCODES
    · rw [if_pos hlen]
      exact ⟨hnd, h1, h50⟩
    · rw [if_neg hlen]
      have hmax : s.length ≤ MAX_BARCODES - 1 := by
        have : s.length < MAX_BARCODES := Nat.lt_of_not_le hlen
        omega
      refine ⟨?_, ?_, ?_⟩
      · rw [idsOf, List.map_append]
        rw [List.nodup_append]
        refine ⟨hnd, by simp, ?_⟩
        intro a ha hb
        simp only [List.map_cons, List.map_nil, List.mem_singleton] at hb
        rw [hb] at ha
        exact hni ha
      · rw [List.length_append]
        omega
      · rw [List.length_append]
        simp only [List.length_singleton]
        rw [MAX_BARCODES] at hmax ⊢
        omega
  | deleteBarcode id =>
    rw [applyOp]
    by_cases hlen : s.length ≤ 1
    · rw [if_pos hlen]
      exact ⟨hnd, h1, h50⟩
    · rw [if_neg hlen]
      refine ⟨?_, ?_, ?_⟩
      · exact List.Nodup.sublist ((List.filter_sublist s).map _) hnd
      · have := filter_ne_length s id hnd
        omega
      · exact le_trans (List.length_filter_le _ _) h50
  | updateBarcode id c sym =>
    have hg : ∀ b : BarcodeItem,
        ((fun b => if b.id = id then
          { b with contents := c, symbology := sym } else b) b).id = b.id := by
      intro b
      by_cases hb : b.id = id <;> simp [hb]
    rw [applyOp]
    exact ⟨by rw [idsOf_map_preserve hg]; exact hnd,
      by rw [List.length_map]; exact h1,
      by rw [List.length_map]; exact h50⟩
  | toggleSelect id =>
    have hg : ∀ b : BarcodeItem,
        ((fun b => if b.id = id then
          { b with isSelected := !b.isSelected } else b) b).id = b.id := by
      intro b
      by_cases hb : b.id = id <;> simp [hb]
    rw [applyOp]
    exact ⟨by rw [idsOf_map_preserve hg]; exact hnd,
      by rw [List.length_map]; exact h1,
      by rw [List.length_map]; exact h50⟩
  | selectAll =>
    have hg : ∀ b : BarcodeItem,
        ((fun (b : BarcodeItem) =>
          { b with isSelected :=
              if jsTruthyOpt b.svgData then
                !(s.all (fun a => a.isSelected && jsTruthyOpt a.svgData))
              else false }) b).id = b.id :=
      fun b => rfl
    rw [applyOp]
    exact ⟨by rw [idsOf_map_preserve hg]; exact hnd,
      by rw [List.length_map]; exact h1,
      by rw [List.length_map]; exact h50⟩
  | setResult id svg err pc =>
    have hg : ∀ b : BarcodeItem,
        ((fun b => if b.id = id then
          { b with svgData := svg, error := err, processedContents := pc }
        else b) b).id = b.id := by
      intro b
      by_cases hb : b.id = id <;> simp [hb]
    rw [applyOp]
    exact ⟨by rw [idsOf_map_preserve hg]; exact hnd,
      by rw [List.length_map]; exact h1,
      by rw [List.length_map]; exact h50⟩

theorem applyOps_invariant (ops : List MultiOp) :
    ∀ s : List BarcodeItem, (idsOf s).Nodup → 1 ≤ s.length →
    s.length ≤ MAX_BARCODES → freshOps s ops = true →
    (idsOf (applyOps s ops)).Nodup ∧ 1 ≤ (applyOps s ops).length ∧
      (applyOps s ops).length ≤ MAX_BARCODES := by
  induction ops with
  | nil =>
    intro s hnd h1 h50 _
    exact ⟨hnd, h1, h50⟩
  | cons op rest ih =>
    intro s hnd h1 h50 hf
    rw [freshOps, Bool.and_eq_true] at hf
    have hst := applyOp_invariant hnd h1 h50 hf.1
    exact ih _ hst.1 hst.2.1 hst.2.2 hf.2

/-- C10 (amended): starting from the one-item initial state, the list
length stays in the range [1, MAX_BARCODES] under every sequence of
handler calls in which each `addBarcode` supplies a fresh id (as the
distinct millisecond-timestamp ids of normal operation do): adding is
refused at 50 items, and deleting - which removes every item carrying the
given id - is refused at 1 item and removes exactly one item when ids are
distinct.  Without the freshness proviso the lower bound fails (see the
counterexample). -/
theorem claim_C10_bounded_list (ops : List MultiOp)
    (hfresh : freshOps initialBarcodes ops = true) :
    1 ≤ (applyOps initialBarcodes ops).length ∧
    (applyOps initialBarcodes ops).length ≤ MAX_BARCODES := by
  have h := applyOps_invariant ops initialBarcodes (by decide) (by decide)
    (by decide) hfresh
  exact ⟨h.2.1, h.2.2⟩

/-- Witness for the amended C10: a fresh add followed by its delete keeps
the length in range. -/
theorem claim_C10_bounded_witness :
    1 ≤ (applyOps initialBarcodes
      [MultiOp.addBarcode "1700000000001", MultiOp.deleteBarcode "1700000000001",
       MultiOp.toggleSelect "1"]).length ∧
    (applyOps initialBarcodes
      [MultiOp.addBarcode "1700000000001", MultiOp.deleteBarcode "1700000000001",
       MultiOp.toggleSelect "1"]).length ≤ MAX_BARCODES :=
  claim_C10_bounded_list
    [MultiOp.addBarcode "1700000000001", MultiOp.deleteBarcode "1700000000001",
     MultiOp.toggleSelect "1"] (by decide)

end BarcodeGen
